import Mathlib

/-!
Verification development for the arxiv-troller retrieval core.
The Python view-layer search functions (src/django/papers/views.py, with the
legacy copy in src/arxiv_troller/papers/views.py) are shallowly embedded as
executable Lean functions.  Database querysets are modelled as lists of rows,
Python sets as `Finset Nat`, wall-clock time as an oracle `Nat → Bool`
(whether the 2-second budget is exceeded at a given source iteration), and
datetimes as integers counted in days (only order and differences matter).
-/

namespace ArxivTroller

/-! ## Python `re.sub` scanning machinery

`re.sub` scans the subject left to right; at each position it tries the
pattern, emits the replacement on a match and resumes after the matched text,
otherwise copies one character.  A matcher receives the reversed prefix (for
lookbehind) and the remaining text, returning the replacement together with
the number of characters consumed.  Fuel equal to the text length bounds the
scan; every matcher used below consumes at least one character. -/

def subScanAux (m : List Char → List Char → Option (List Char × Nat)) :
    Nat → List Char → List Char → List Char
  | 0, _, rem => rem
  | _ + 1, _, [] => []
  | fuel + 1, revPre, c :: rest =>
    match m revPre (c :: rest) with
    | some (repl, n) =>
      repl ++ subScanAux m fuel ((List.take n (c :: rest)).reverse ++ revPre)
        (List.drop n (c :: rest))
    | none => c :: subScanAux m fuel (c :: revPre) rest

def pySub (m : List Char → List Char → Option (List Char × Nat))
    (s : List Char) : List Char :=
  subScanAux m s.length [] s

/-- Strip a literal character sequence from the front, returning the rest. -/
def dropLit : List Char → List Char → Option (List Char)
  | [], rem => some rem
  | _ :: _, [] => none
  | p :: ps, c :: rest => if c = p then dropLit ps rest else none

/-- Greedy `([^}]+)\}`: a nonempty run of non-brace characters followed by
a closing brace; returns the run and the text after the brace. -/
def braceArg (l : List Char) : Option (List Char × List Char) :=
  let arg := l.takeWhile (fun c => c ≠ '\x7d')
  match l.drop arg.length with
  | '\x7d' :: rest => if arg.isEmpty then none else some (arg, rest)
  | _ => none

/-- Matcher for a one-argument command `\cmd{arg}` rewritten to
`pre ++ arg ++ post` (the Python patterns `\\textbf\{([^}]+)\}` etc.). -/
def matchBraceCmd (cmd pre post : List Char) (_revPre rem : List Char) :
    Option (List Char × Nat) :=
  match dropLit cmd rem with
  | none => none
  | some rest1 =>
    match braceArg rest1 with
    | none => none
    | some (arg, _) => some (pre ++ arg ++ post, cmd.length + arg.length + 1)

/-- Matcher for a fixed literal rewritten to a fixed replacement. -/
def matchLit (pat repl : List Char) (_revPre rem : List Char) :
    Option (List Char × Nat) :=
  match dropLit pat rem with
  | none => none
  | some _ => some (repl, pat.length)

/-- `\url{u}` → `<a href="u" target="_blank">u</a>` (argument used twice). -/
def matchUrlCmd (_revPre rem : List Char) : Option (List Char × Nat) :=
  match dropLit ("\\url\x7b".toList) rem with
  | none => none
  | some rest1 =>
    match braceArg rest1 with
    | none => none
    | some (arg, _) =>
      some ("<a href=\"".toList ++ arg ++ "\" target=\"_blank\">".toList ++
        arg ++ "</a>".toList, 5 + arg.length + 1)

/-- `\href{u}{t}` → `<a href="u" target="_blank">t</a>`. -/
def matchHrefCmd (_revPre rem : List Char) : Option (List Char × Nat) :=
  match dropLit ("\\href\x7b".toList) rem with
  | none => none
  | some rest1 =>
    match braceArg rest1 with
    | none => none
    | some (u, rest2) =>
      match rest2 with
      | '\x7b' :: rest3 =>
        match braceArg rest3 with
        | none => none
        | some (t, _) =>
          some ("<a href=\"".toList ++ u ++ "\" target=\"_blank\">".toList ++
            t ++ "</a>".toList, 6 + u.length + 1 + 1 + t.length + 1)
      | _ => none

/-- `\textbackslash(?:\{\})?` → a single backslash; greedy optional `{}`. -/
def matchTextbackslash (_revPre rem : List Char) : Option (List Char × Nat) :=
  match dropLit ("\\textbackslash".toList) rem with
  | none => none
  | some rest =>
    match rest with
    | '\x7b' :: '\x7d' :: _ => some (['\\'], 16)
    | _ => some (['\\'], 14)

/-- Python `\s` character class. -/
def isPySpace (c : Char) : Bool :=
  c = ' ' || c = '\t' || c = '\n' || c = '\r' || c = '\x0b' || c = '\x0c'

/-- Characters admissible in the bare-URL run `[^\s<>"]`. -/
def urlChar (c : Char) : Bool :=
  !(isPySpace c) && c ≠ '<' && c ≠ '>' && c ≠ '"'

/-- Bare-URL autolink pattern
`(?<!href=")(?<!">)(https?://[^\s<>"]+?)(\.)?(?=\s|$)` with replacement
`<a href="g1" target="_blank">g1</a>` plus the stripped trailing dot.
The lazy run together with the lookahead means: a match exists exactly when
the maximal run of URL characters after the scheme is nonempty and ends at
whitespace or end of text; a single trailing dot is split off as group 2. -/
def matchBareUrl (revPre rem : List Char) : Option (List Char × Nat) :=
  if ("\"=ferh".toList).isPrefixOf revPre then none
  else if ("\">".toList).isPrefixOf revPre then none
  else
    match dropLit ("http".toList) rem with
    | none => none
    | some rest0 =>
      let pick : Option (List Char × Nat) :=
        match rest0 with
        | 's' :: ':' :: '/' :: '/' :: tail => some (tail, 8)
        | ':' :: '/' :: '/' :: tail => some (tail, 7)
        | _ => none
      match pick with
      | none => none
      | some (tail, schemeLen) =>
        let run := tail.takeWhile urlChar
        let boundary := tail.drop run.length
        let boundaryOk := match boundary with
          | [] => true
          | c :: _ => isPySpace c
        if run.isEmpty || !boundaryOk then none
        else
          let g1 := if run.getLast? = some '.' ∧ run.length ≥ 2 then
            run.dropLast else run
          let g2 : List Char := if run.getLast? = some '.' ∧ run.length ≥ 2 then
            ['.'] else []
          some ("<a href=\"".toList ++ g1 ++ "\" target=\"_blank\">".toList ++
            g1 ++ "</a>".toList ++ g2, schemeLen + run.length)

/-- `process_latex_commands` from src/django/papers/views.py: the ordered
sequence of `re.sub` passes.  Note that in the source the replacement for a
lone backtick is a Python triple-quoted string spanning two lines (so the
backtick is rewritten to that literal code fragment and there is no separate
apostrophe substitution). -/
def process_latex_commands (text : String) : String :=
  let t := text.toList
  let t := pySub (matchBraceCmd ("\\textbf\x7b".toList) ("<strong>".toList) ("</strong>".toList)) t
  let t := pySub (matchBraceCmd ("\\textit\x7b".toList) ("<em>".toList) ("</em>".toList)) t
  let t := pySub (matchBraceCmd ("\\emph\x7b".toList) ("<em>".toList) ("</em>".toList)) t
  let t := pySub (matchBraceCmd ("\\texttt\x7b".toList) ("<code>".toList) ("</code>".toList)) t
  let t := pySub (matchBraceCmd ("\\underline\x7b".toList) ("<u>".toList) ("</u>".toList)) t
  let t := pySub matchUrlCmd t
  let t := pySub matchHrefCmd t
  let t := pySub matchBareUrl t
  let t := pySub (matchLit ("\\%".toList) ("%".toList)) t
  let t := pySub (matchLit ("\\&".toList) ("&".toList)) t
  let t := pySub (matchLit ("\\$".toList) ("$".toList)) t
  let t := pySub (matchLit ("\\#".toList) ("#".toList)) t
  let t := pySub (matchLit ("\\_".toList) ("_".toList)) t
  let t := pySub (matchLit ("\\\x7b".toList) ("\x7b".toList)) t
  let t := pySub (matchLit ("\\\x7d".toList) ("\x7d".toList)) t
  let t := pySub matchTextbackslash t
  let t := pySub (matchLit ("\\~".toList) ("~".toList)) t
  let t := pySub (matchLit ("\\^".toList) ("^".toList)) t
  let t := pySub (matchLit ("``".toList) ("\"".toList)) t
  let t := pySub (matchLit ("\x27\x27".toList) ("\"".toList)) t
  let t := pySub (matchLit ("`".toList) (", text)\n    text = re.sub(r\"\x27\", ".toList)) t
  let t := pySub (matchLit ("\\,".toList) (" ".toList)) t
  let t := pySub (matchLit ("~".toList) ("&nbsp;".toList)) t
  let t := pySub (matchLit ("\\\\".toList) ("<br>".toList)) t
  String.mk t

/-! ## Data model

`Paper` carries the fields the retrieval core reads.  `created` is a
timestamp in days.  A `Corpus` is the database together with the oracles the
embedded functions consult: whether a paper has a row in the configured
embedding table (`EMBEDDING_MODEL`), the vector distance between two papers'
embeddings, and the full-text-match and rank oracles standing for the
Postgres `SearchQuery` / `SearchRank` primitives. -/

structure Paper where
  id : Nat
  arxiv_id : String
  title : String
  abstract : String
  created : Int
  categories : List String
deriving DecidableEq, Repr

structure Corpus where
  papers : List Paper
  hasEmbedding : Nat → Bool
  dist : Nat → Nat → Nat
  matchesQuery : String → Paper → Bool
  rank : String → Paper → Int

/-- The request-scoped search context assembled by the `search` view
(src/django/papers/views.py lines 153-165): tag fields are represented by
the member paper ids of the tag. -/
structure SearchContext where
  query : String
  date_filter : String
  category_filter : String
  single_paper_id : Option String
  search_all_tag : Option String
  title_query : Option String
  exclude_ids : Finset Nat
  query_error : Option String
  parsed_tag_for_search : Option (List Nat)
  current_tag : Option (List Nat)
  actual_query : String
deriving DecidableEq

/-- Inbound request parameters of the unified `search` view.  `user_tags`
lists the authenticated user's tags as (name, member paper ids);
`tag_param` is the drawer-scope tag's member list resolved from the `tag`
URL parameter. -/
structure Request where
  q : String
  date_filter : String
  category : String
  single_paper : Option String
  search_all : Option String
  exclude_ids : Finset Nat
  authenticated : Bool
  user_tags : List (String × List Nat)
  tag_param : Option (List Nat)
deriving DecidableEq

def RESULTS_PER_PAGE : Nat := 20
def MAX_RESULTS : Nat := 400

/-- `get_date_cutoff` (src/django/papers/views.py lines 82-98): `"all"` and
unknown tokens map to no cutoff; otherwise a fixed offset in days from now.
`timedelta(days=d)` is modelled as the integer `d`. -/
def get_date_cutoff (now : Int) (date_filter : String) : Option Int :=
  if date_filter = "all" then none
  else if date_filter = "1day" then some (now - 1)
  else if date_filter = "3day" then some (now - 3)
  else if date_filter = "1week" then some (now - 7)
  else if date_filter = "1month" then some (now - 30)
  else if date_filter = "3months" then some (now - 90)
  else if date_filter = "6months" then some (now - 180)
  else if date_filter = "1year" then some (now - 365)
  else if date_filter = "2years" then some (now - 730)
  else none

/-- `get_date_cutoff` of the legacy view
(src/arxiv_troller/papers/views.py lines 51-65); its table has no
`1day`/`3day` entries. -/
def legacy_get_date_cutoff (now : Int) (date_filter : String) : Option Int :=
  if date_filter = "all" then none
  else if date_filter = "1week" then some (now - 7)
  else if date_filter = "1month" then some (now - 30)
  else if date_filter = "3months" then some (now - 90)
  else if date_filter = "6months" then some (now - 180)
  else if date_filter = "1year" then some (now - 365)
  else if date_filter = "2years" then some (now - 730)
  else none

/-- Date-filter defaulting in the legacy `_execute_keyword_search`
(src/arxiv_troller/papers/views.py lines 128-130). -/
def legacy_keyword_date_filter (date_filter : String) : String :=
  if date_filter = "" then "all" else date_filter

/-- Date-filter defaulting in the legacy similarity searches
(src/arxiv_troller/papers/views.py lines 187-189 and 284-286). -/
def legacy_similarity_date_filter (date_filter : String) : String :=
  if date_filter = "" then "1week" else date_filter

/-- The exclusion-set enlargement performed in place by `get_valid_papers`
(src/django/papers/views.py lines 477-485): the scope tag's member ids and
the current source paper's id are added to the request's set. -/
def updatedExclude (ctx : SearchContext) (current_paper : Option Paper) :
    Finset Nat :=
  let ex1 : Finset Nat := match ctx.current_tag with
    | some members => ctx.exclude_ids ∪ members.toFinset
    | none => ctx.exclude_ids
  match current_paper with
  | some p => insert p.id ex1
  | none => ex1

/-- `get_valid_papers` (src/django/papers/views.py lines 474-494).  The
Python function mutates the request's `exclude_ids` set in place (it aliases
`context["exclude_ids"]` and calls `update`/`add` on it); the model returns
the filtered queryset together with the updated set. -/
def get_valid_papers (db : Corpus) (now : Int) (ctx : SearchContext)
    (current_paper : Option Paper) : List Paper × Finset Nat :=
  let ex2 := updatedExclude ctx current_paper
  let q1 := db.papers.filter (fun p => decide (p.id ∉ ex2))
  let q2 := match get_date_cutoff now ctx.date_filter with
    | some cutoff => q1.filter (fun p => decide (cutoff ≤ p.created))
    | none => q1
  let q3 := if ctx.category_filter ≠ "" then
      q2.filter (fun p => decide (ctx.category_filter ∈ p.categories))
    else q2
  (q3, ex2)

/-- `get_similar_embeddings` (src/django/papers/views.py lines 497-508):
no embedding row for the source paper yields `[]`; otherwise the embedding
rows of papers in the candidate queryset, ordered by ascending vector
distance to the source, truncated to `num_results`. -/
def get_similar_embeddings (db : Corpus) (paper : Paper) (valid : List Paper)
    (num_results : Nat) : List Paper :=
  if db.hasEmbedding paper.id then
    ((valid.filter (fun p => db.hasEmbedding p.id)).insertionSort
      (fun a b => db.dist paper.id a.id ≤ db.dist paper.id b.id)).take num_results
  else []

/-- Case-insensitive substring test standing for Django `title__icontains`. -/
def icontains (hay sub : String) : Bool :=
  let h := hay.toList.map Char.toLower
  let s := sub.toList.map Char.toLower
  (List.range (h.length + 1)).any (fun i => s.isPrefixOf (h.drop i))

/-- `title_search` (src/django/papers/views.py lines 285-299): substring
filter on the title, ordered by descending creation date, first page only. -/
def title_search (db : Corpus) (now : Int) (ctx : SearchContext) :
    List Paper × Finset Nat :=
  let query := ctx.title_query.getD ""
  let vp := get_valid_papers db now ctx none
  let papers := (vp.1.filter (fun p => icontains p.title query)).insertionSort
    (fun a b => b.created ≤ a.created)
  (papers.take RESULTS_PER_PAGE, vp.2)

/-- The full-text hits of `keyword_search` before ranking and truncation. -/
def keyword_matches (db : Corpus) (now : Int) (ctx : SearchContext) :
    List Paper :=
  (get_valid_papers db now ctx none).1.filter (db.matchesQuery ctx.query)

/-- `keyword_search` (src/django/papers/views.py lines 302-318): full-text
filter, ordered by descending rank then descending creation date, first
page only. -/
def keyword_search (db : Corpus) (now : Int) (ctx : SearchContext) :
    List Paper × Finset Nat :=
  let papers := (keyword_matches db now ctx).insertionSort
    (fun a b => db.rank ctx.query b < db.rank ctx.query a ∨
      (db.rank ctx.query a = db.rank ctx.query b ∧ b.created ≤ a.created))
  (papers.take RESULTS_PER_PAGE, (get_valid_papers db now ctx none).2)

/-- Decimal digit accumulator (kernel-reducible stand-in for string-to-int
parsing). -/
def decDigits : List Char → Nat → Option Nat
  | [], acc => some acc
  | c :: rest, acc =>
    if c.isDigit then decDigits rest (10 * acc + (c.toNat - 48)) else none

/-- Python `int(·)` on a string: an optional minus sign followed by at
least one decimal digit. -/
def pyInt? (s : String) : Option Int :=
  match s.toList with
  | [] => none
  | '-' :: [] => none
  | '-' :: d :: rest => (decDigits (d :: rest) 0).map (fun n => -(n : Int))
  | d :: rest => (decDigits (d :: rest) 0).map (fun n => (n : Int))

/-- Paper-id resolution of `paper_search`
(src/django/papers/views.py lines 326-335): first as the internal integer
id, then as `arxiv_id`; `none` models the final `get_object_or_404`
raising 404. -/
def resolve_paper_param (db : Corpus) (paper_id : String) : Option Paper :=
  match pyInt? paper_id with
  | some n =>
    match db.papers.find? (fun p => decide ((p.id : Int) = n)) with
    | some p => some p
    | none => db.papers.find? (fun p => p.arxiv_id = paper_id)
  | none => db.papers.find? (fun p => p.arxiv_id = paper_id)

/-- `paper_search` (src/django/papers/views.py lines 321-346): resolve the
source paper, exclude it via `get_valid_papers`, and take its nearest
neighbours.  Returns the page, the updated exclusion set and the source. -/
def paper_search (db : Corpus) (now : Int) (ctx : SearchContext) :
    Option (List Paper × Finset Nat × Paper) :=
  match resolve_paper_param db (ctx.single_paper_id.getD "") with
  | none => none
  | some paper =>
    some (get_similar_embeddings db paper
      (get_valid_papers db now ctx (some paper)).1 RESULTS_PER_PAGE,
      (get_valid_papers db now ctx (some paper)).2, paper)

/-! ## Multi-source tag similarity search -/

/-- The inner deduplication loop of `tag_search`
(src/django/papers/views.py lines 383-387): walk the fetched similars,
keeping those whose id is not yet in `seen` and extending `seen`. -/
def addNew (seen : Finset Nat) : List Paper → List Paper × Finset Nat
  | [] => ([], seen)
  | p :: rest =>
    if p.id ∈ seen then addNew seen rest
    else
      let r := addNew (insert p.id seen) rest
      (p :: r.1, r.2)

/-- State threaded through the `for paper in tagged_papers` loop of
`tag_search`: the per-source groups of new results, the seen-id set, the
running count, and the current `res_per_source`. -/
structure TagLoopState where
  results : List (List Paper)
  seen : Finset Nat
  count : Nat
  k : Nat

/-- One iteration body of the `tag_search` source loop with per-source
depth `k1`: fetch the similars, keep the unseen ones as a new group, bump
the count. -/
def tagStep (db : Corpus) (valid : List Paper) (k1 : Nat)
    (st : TagLoopState) (paper : Paper) : TagLoopState :=
  ⟨if (addNew st.seen (get_similar_embeddings db paper valid k1)).1.isEmpty
      then st.results
      else st.results ++ [(addNew st.seen (get_similar_embeddings db paper valid k1)).1],
   (addNew st.seen (get_similar_embeddings db paper valid k1)).2,
   st.count + (addNew st.seen (get_similar_embeddings db paper valid k1)).1.length,
   k1⟩

/-- The source loop of `tag_search` (src/django/papers/views.py lines
373-394).  `timeEx i` tells whether the 2-second wall-clock budget is
already exceeded when source `i` is reached; in that case `res_per_source`
is widened to `total_needed` before fetching.  The loop breaks as soon as
`count` reaches `total_needed`. -/
def tag_loop (db : Corpus) (valid : List Paper) (total_needed : Nat)
    (timeEx : Nat → Bool) : Nat → List Paper → TagLoopState → TagLoopState
  | _, [], st => st
  | i, paper :: rest, st =>
    if total_needed ≤
        (tagStep db valid (if timeEx i then total_needed else st.k) st paper).count
      then tagStep db valid (if timeEx i then total_needed else st.k) st paper
    else tag_loop db valid total_needed timeEx (i + 1) rest
      (tagStep db valid (if timeEx i then total_needed else st.k) st paper)

/-- The final interleave of `tag_search` (src/django/papers/views.py lines
396-400): `for i in range(res_per_source): for group in results:
if len(group) > i: papers.append(group[i])`. -/
def roundRobin {α : Type} (k : Nat) (groups : List (List α)) : List α :=
  ((List.range k).map (fun i => groups.filterMap (fun g => g[i]?))).flatten

/-- The source papers of a tag, in iteration order.  The Python code
shuffles the member list before iterating; the model receives the member
ids already in their (arbitrary) post-shuffle order. -/
def source_papers (db : Corpus) (members : List Nat) : List Paper :=
  members.filterMap (fun i => db.papers.find? (fun p => p.id = i))

/-- `tag_search` (src/django/papers/views.py lines 349-402): empty member
list returns `[]` before touching the filters; otherwise the deduplicating
source loop followed by the round-robin interleave of the per-source groups.
Returns the result sequence and the updated exclusion set. -/
def tag_search (db : Corpus) (now : Int) (ctx : SearchContext)
    (timeEx : Nat → Bool) : List Paper × Finset Nat :=
  let tagged_papers := source_papers db (ctx.parsed_tag_for_search.getD [])
  if tagged_papers.isEmpty then ([], ctx.exclude_ids)
  else
    let vp := get_valid_papers db now ctx none
    let total_needed := RESULTS_PER_PAGE
    let res_per_source := max 1 (total_needed / max 1 tagged_papers.length) + 1
    let st := tag_loop db vp.1 total_needed timeEx 0 tagged_papers
      ⟨[], ∅, 0, res_per_source⟩
    (roundRobin st.k st.results, vp.2)

/-- First-occurrence deduplication by paper id. -/
def dedupFirstAux (seen : Finset Nat) : List Paper → List Paper
  | [] => []
  | p :: rest =>
    if p.id ∈ seen then dedupFirstAux seen rest
    else p :: dedupFirstAux (insert p.id seen) rest

/-- Modelled from the spec (§4.5 steps 2-4, the algorithm claim C1 states):
fetch each source's top-`k` nearest-neighbour list from the shared candidate
set, interleave them round-robin with the sources in their original order
(round `r` contributes each source's `r`-th result), then deduplicate
preserving first occurrence. -/
def spec_interleave_dedup (db : Corpus) (valid : List Paper)
    (sources : List Paper) (k : Nat) : List Paper :=
  dedupFirstAux ∅
    (roundRobin k (sources.map (fun s => get_similar_embeddings db s valid k)))

/-! ## Query classifier and unified dispatch -/

/-- Python `str.strip()`. -/
def pyStrip (s : String) : String :=
  String.mk (((s.toList.dropWhile isPySpace).reverse.dropWhile isPySpace).reverse)

/-- `re.match(r"^kw:\s(.+)$", raw)`: the literal keyword and colon, one
whitespace character, then a nonempty newline-free group running to the end
(one trailing newline tolerated by `$`). -/
def matchColonCmd (kw : List Char) (raw : String) : Option String :=
  match dropLit kw raw.toList with
  | none => none
  | some [] => none
  | some (c :: body) =>
    if isPySpace c then
      let body2 := if body.getLast? = some '\n' then body.dropLast else body
      if !body2.isEmpty && body2.all (fun ch => ch ≠ '\n') then
        some (String.mk body2)
      else none
    else none

/-- Result of parsing the raw query for `tag: X` / `paper: X` / `title: X`
(src/django/papers/views.py lines 115-151). -/
structure ParsedQuery where
  parsed_single_paper_id : Option String
  parsed_search_all_tag : Option String
  parsed_tag_for_search : Option (List Nat)
  title_query : Option String
  actual_query : String
  query_error : Option String
deriving DecidableEq

/-- The query classifier (src/django/papers/views.py lines 115-151): `tag:`
resolves against the user's tags (login required), `paper:` resolves the
stripped group **as `arxiv_id` only**, `title:` keeps the stripped group;
otherwise the query is free text. -/
def classify_query (db : Corpus) (authenticated : Bool)
    (user_tags : List (String × List Nat)) (raw_query : String) : ParsedQuery :=
  if raw_query = "" then ⟨none, none, none, none, raw_query, none⟩
  else
    match matchColonCmd ("tag:".toList) raw_query with
    | some tag_name =>
      if authenticated then
        match user_tags.find? (fun t => t.1 = tag_name) with
        | some t => ⟨none, some "1", some t.2, none, "", none⟩
        | none => ⟨none, none, none, none, raw_query,
            some ("Tag \x27" ++ tag_name ++ "\x27 does not exist")⟩
      else ⟨none, none, none, none, raw_query,
        some "You must be logged in to search by tag"⟩
    | none =>
      match matchColonCmd ("paper:".toList) raw_query with
      | some g =>
        let arxiv_id := pyStrip g
        match db.papers.find? (fun p => p.arxiv_id = arxiv_id) with
        | some p => ⟨some (toString p.id), none, none, none, "", none⟩
        | none => ⟨none, none, none, none, raw_query,
            some ("Paper with arXiv ID \x27" ++ arxiv_id ++ "\x27 does not exist")⟩
      | none =>
        match matchColonCmd ("title:".toList) raw_query with
        | some g => ⟨none, none, none, some (pyStrip g), raw_query, none⟩
        | none => ⟨none, none, none, none, raw_query, none⟩

/-- Python truthiness of an optional string. -/
def truthy : Option String → Bool
  | some s => s ≠ ""
  | none => false

/-- Assembly of the search context (src/django/papers/views.py lines
116-165 and the date default at lines 209-210).  The parsed value wins in
`parsed_single_paper_id or query_params.get("single_paper")` and
`parsed_search_all_tag or query_params.get("search_all")`; the drawer
`current_tag` comes from the URL `tag` parameter only. -/
def make_context (db : Corpus) (req : Request) : SearchContext :=
  let raw := pyStrip req.q
  let pq := classify_query db req.authenticated req.user_tags raw
  { query := raw
    date_filter := if req.date_filter = "" then "1week" else req.date_filter
    category_filter := req.category
    single_paper_id := pq.parsed_single_paper_id.orElse (fun _ => req.single_paper)
    search_all_tag := pq.parsed_search_all_tag.orElse (fun _ => req.search_all)
    title_query := pq.title_query
    exclude_ids := req.exclude_ids
    query_error := pq.query_error
    parsed_tag_for_search := pq.parsed_tag_for_search
    current_tag := if req.authenticated then req.tag_param else none
    actual_query := pq.actual_query }

/-- The response envelope fields of the `search` view the claims are about. -/
structure SearchOutcome where
  papers : List Paper
  has_more : Bool
  query_error : Option String
  search_type : Option String
  exclude_after : Finset Nat
  source_paper : Option Paper
deriving DecidableEq

/-- The strategy dispatch of the `search` view (src/django/papers/views.py
lines 212-224): a classifier error suppresses execution; otherwise
single-paper, tag (requiring the parsed tag), title and keyword search are
tried in that order.  Each branch yields the result list, the exclusion set
as mutated by `get_valid_papers`, the search-context type and the source
paper; `none` models an HTTP 404 from `paper_search`. -/
def dispatchModel (db : Corpus) (now : Int) (timeEx : Nat → Bool)
    (ctx : SearchContext) :
    Option (List Paper × Finset Nat × Option String × Option Paper) :=
  if ctx.query_error.isSome then some ([], ctx.exclude_ids, none, none)
  else if truthy ctx.single_paper_id then
    match paper_search db now ctx with
    | some (papers, ex, src) => some (papers, ex, some "single_paper", some src)
    | none => none
  else if truthy ctx.search_all_tag && ctx.parsed_tag_for_search.isSome then
    some ((tag_search db now ctx timeEx).1, (tag_search db now ctx timeEx).2,
      some "tag_all", none)
  else if truthy ctx.title_query then
    some ((title_search db now ctx).1, (title_search db now ctx).2,
      some "title", none)
  else if ctx.actual_query ≠ "" then
    some ((keyword_search db now ctx).1, (keyword_search db now ctx).2,
      some "keyword", none)
  else some ([], ctx.exclude_ids, none, none)

/-- The `search` view (src/django/papers/views.py lines 101-282, retrieval
core only): build the context, dispatch, and compute `has_more` as
`bool(len(papers)) and (len(context["exclude_ids"]) + RESULTS_PER_PAGE <
MAX_RESULTS)` on the exclusion set as mutated by `get_valid_papers`. -/
def searchModel (db : Corpus) (now : Int) (timeEx : Nat → Bool)
    (req : Request) : Option SearchOutcome :=
  match dispatchModel db now timeEx (make_context db req) with
  | none => none
  | some (papers, ex, ty, src) =>
    some { papers := papers
           has_more := decide (papers ≠ []) &&
             decide (ex.card + RESULTS_PER_PAGE < MAX_RESULTS)
           query_error := (make_context db req).query_error
           search_type := ty
           exclude_after := ex
           source_paper := src }

/-! ## Helper lemmas: deduplication and interleave structure -/

theorem addNew_cons_mem (seen : Finset Nat) (q : Paper) (rest : List Paper)
    (h : q.id ∈ seen) : addNew seen (q :: rest) = addNew seen rest := by
  simp [addNew, h]

theorem addNew_cons_notMem (seen : Finset Nat) (q : Paper) (rest : List Paper)
    (h : q.id ∉ seen) :
    addNew seen (q :: rest) =
      (q :: (addNew (insert q.id seen) rest).1, (addNew (insert q.id seen) rest).2) := by
  simp [addNew, h]

theorem addNew_sub (seen : Finset Nat) (l : List Paper) :
    ∀ p ∈ (addNew seen l).1, p ∈ l := by
  induction l generalizing seen with
  | nil => simp [addNew]
  | cons q rest ih =>
    intro p hp
    by_cases hq : q.id ∈ seen
    · rw [addNew_cons_mem _ _ _ hq] at hp
      exact List.mem_cons_of_mem _ (ih seen p hp)
    · rw [addNew_cons_notMem _ _ _ hq] at hp
      rcases List.mem_cons.mp hp with h | h
      · simp [h]
      · exact List.mem_cons_of_mem _ (ih _ p h)

theorem addNew_spec (seen : Finset Nat) (l : List Paper) :
    ((addNew seen l).1.map Paper.id).Nodup ∧
    (∀ p ∈ (addNew seen l).1, p.id ∉ seen) ∧
    seen ⊆ (addNew seen l).2 ∧
    ∀ p ∈ (addNew seen l).1, p.id ∈ (addNew seen l).2 := by
  induction l generalizing seen with
  | nil => simp [addNew]
  | cons q rest ih =>
    by_cases hq : q.id ∈ seen
    · rw [addNew_cons_mem _ _ _ hq]
      obtain ⟨i1, i2, i3, i4⟩ := ih seen
      exact ⟨i1, i2, i3, i4⟩
    · rw [addNew_cons_notMem _ _ _ hq]
      obtain ⟨i1, i2, i3, i4⟩ := ih (insert q.id seen)
      refine ⟨?_, ?_, ?_, ?_⟩
      · refine List.Nodup.cons ?_ i1
        intro hmem
        rw [List.mem_map] at hmem
        obtain ⟨p, hp, hpq⟩ := hmem
        exact (i2 p hp) (hpq ▸ Finset.mem_insert_self _ _)
      · intro p hp
        rcases List.mem_cons.mp hp with h | h
        · exact h ▸ hq
        · exact fun hs => (i2 p h) (Finset.mem_insert_of_mem hs)
      · exact fun x hx => i3 (Finset.mem_insert_of_mem hx)
      · intro p hp
        rcases List.mem_cons.mp hp with h | h
        · exact h ▸ i3 (Finset.mem_insert_self _ _)
        · exact i4 p h

/-- Invariant carried through the `tag_search` source loop: the collected
groups have pairwise-disjoint, duplicate-free id sets, all recorded in
`seen`, and all their members come from the candidate set. -/
def GroupsOk (seen : Finset Nat) (results : List (List Paper))
    (valid : List Paper) : Prop :=
  (∀ g ∈ results, (g.map Paper.id).Nodup) ∧
  List.Pairwise List.Disjoint (results.map (fun g => g.map Paper.id)) ∧
  (∀ g ∈ results, ∀ p ∈ g, p.id ∈ seen) ∧
  ∀ g ∈ results, ∀ p ∈ g, p ∈ valid

theorem get_similar_sub (db : Corpus) (paper : Paper) (valid : List Paper)
    (n : Nat) : ∀ p ∈ get_similar_embeddings db paper valid n, p ∈ valid := by
  intro p hp
  unfold get_similar_embeddings at hp
  split at hp
  · have h1 := List.take_subset _ _ hp
    rw [List.mem_insertionSort] at h1
    exact (List.mem_filter.mp h1).1
  · simp at hp

theorem GroupsOk.step (st : TagLoopState) (similars valid : List Paper)
    (hsim : ∀ p ∈ similars, p ∈ valid)
    (h : GroupsOk st.seen st.results valid) :
    GroupsOk (addNew st.seen similars).2
      (if (addNew st.seen similars).1.isEmpty then st.results
        else st.results ++ [(addNew st.seen similars).1]) valid := by
  obtain ⟨h1, h2, h3, h4⟩ := h
  obtain ⟨a1, a2, a3, a4⟩ := addNew_spec st.seen similars
  split
  · exact ⟨h1, h2, fun g hg p hp => a3 (h3 g hg p hp), h4⟩
  · refine ⟨?_, ?_, ?_, ?_⟩
    · intro g hg
      rcases List.mem_append.mp hg with h | h
      · exact h1 g h
      · rw [List.mem_singleton.mp h]; exact a1
    · rw [List.map_append, List.pairwise_append]
      refine ⟨h2, by simp, ?_⟩
      intro a ha b hb
      rw [List.mem_map] at ha
      obtain ⟨g, hg, rfl⟩ := ha
      rw [List.map_singleton, List.mem_singleton] at hb
      subst hb
      intro x hxa hxb
      rw [List.mem_map] at hxa hxb
      obtain ⟨p, hp, rfl⟩ := hxa
      obtain ⟨p', hp', hpp⟩ := hxb
      exact a2 p' hp' (hpp ▸ h3 g hg p hp)
    · intro g hg p hp
      rcases List.mem_append.mp hg with h | h
      · exact a3 (h3 g h p hp)
      · rw [List.mem_singleton.mp h] at hp; exact a4 p hp
    · intro g hg p hp
      rcases List.mem_append.mp hg with h | h
      · exact h4 g h p hp
      · rw [List.mem_singleton.mp h] at hp
        exact hsim p (addNew_sub _ _ p hp)

theorem GroupsOk.tagStep_ok (db : Corpus) (valid : List Paper) (k1 : Nat)
    (st : TagLoopState) (paper : Paper)
    (h : GroupsOk st.seen st.results valid) :
    GroupsOk (tagStep db valid k1 st paper).seen
      (tagStep db valid k1 st paper).results valid :=
  GroupsOk.step st (get_similar_embeddings db paper valid k1) valid
    (get_similar_sub db paper valid _) h

theorem tag_loop_ok (db : Corpus) (valid : List Paper) (tn : Nat)
    (timeEx : Nat → Bool) (src : List Paper) :
    ∀ (i : Nat) (st : TagLoopState), GroupsOk st.seen st.results valid →
      GroupsOk (tag_loop db valid tn timeEx i src st).seen
        (tag_loop db valid tn timeEx i src st).results valid := by
  induction src with
  | nil => intro i st h; simpa [tag_loop] using h
  | cons paper rest ih =>
    intro i st h
    rw [tag_loop]
    split <;> (try split) <;>
      first
        | exact GroupsOk.tagStep_ok db valid _ st paper h
        | exact ih (i + 1) _ (GroupsOk.tagStep_ok db valid _ st paper h)

theorem mem_roundRobin {α : Type} {x : α} {k : Nat} {groups : List (List α)}
    (h : x ∈ roundRobin k groups) : ∃ g ∈ groups, x ∈ g := by
  unfold roundRobin at h
  rw [List.mem_flatten] at h
  obtain ⟨b, hb, hx⟩ := h
  rw [List.mem_map] at hb
  obtain ⟨i, _, rfl⟩ := hb
  rw [List.mem_filterMap] at hx
  obtain ⟨g, hg, hgx⟩ := hx
  refine ⟨g, hg, ?_⟩
  obtain ⟨hlen, rfl⟩ := List.getElem?_eq_some_iff.mp hgx
  exact List.getElem_mem hlen

theorem filterMap_getElem?_nodup (G : List (List Nat)) (i : Nat)
    (h2 : List.Pairwise List.Disjoint G) :
    (G.filterMap (fun g => g[i]?)).Nodup := by
  induction G with
  | nil => simp
  | cons g G' ih =>
    rw [List.pairwise_cons] at h2
    obtain ⟨hdisj, h2'⟩ := h2
    rw [List.filterMap_cons]
    cases hg : g[i]? with
    | none => exact ih h2'
    | some x =>
      refine List.Nodup.cons ?_ (ih h2')
      intro hx
      rw [List.mem_filterMap] at hx
      obtain ⟨g', hg', hx'⟩ := hx
      obtain ⟨hl1, rfl⟩ := List.getElem?_eq_some_iff.mp hg
      obtain ⟨hl2, he⟩ := List.getElem?_eq_some_iff.mp hx'
      exact hdisj g' hg' (List.getElem_mem hl1) (he ▸ List.getElem_mem hl2)

theorem roundRobin_nodup (k : Nat) (G : List (List Nat))
    (h1 : ∀ g ∈ G, g.Nodup) (h2 : List.Pairwise List.Disjoint G) :
    (roundRobin k G).Nodup := by
  unfold roundRobin
  rw [List.nodup_flatten]
  constructor
  · intro b hb
    rw [List.mem_map] at hb
    obtain ⟨i, _, rfl⟩ := hb
    exact filterMap_getElem?_nodup G i h2
  · rw [List.pairwise_map]
    refine (List.pairwise_lt_range k).imp ?_
    intro i j hij x hxi hxj
    rw [List.mem_filterMap] at hxi hxj
    obtain ⟨g1, hg1, hx1⟩ := hxi
    obtain ⟨g2, hg2, hx2⟩ := hxj
    by_cases hgg : g1 = g2
    · subst hgg
      have hlen : i < g1.length := (List.getElem?_eq_some_iff.mp hx1).1
      have := List.getElem?_inj hlen (h1 g1 hg1) (hx1.trans hx2.symm)
      omega
    · have hd := List.Pairwise.forall
        (fun _ _ h => List.Disjoint.symm h) h2 hg1 hg2 hgg
      obtain ⟨hl1, rfl⟩ := List.getElem?_eq_some_iff.mp hx1
      obtain ⟨hl2, he⟩ := List.getElem?_eq_some_iff.mp hx2
      exact hd (List.getElem_mem hl1) (he ▸ List.getElem_mem hl2)

theorem roundRobin_map {α β : Type} (f : α → β) (k : Nat)
    (groups : List (List α)) :
    (roundRobin k groups).map f = roundRobin k (groups.map (fun g => g.map f)) := by
  unfold roundRobin
  rw [List.map_flatten, List.map_map]
  congr 1
  refine List.map_congr_left ?_
  intro i _
  rw [Function.comp_apply, List.map_filterMap, List.filterMap_map]
  congr 1
  funext g
  rw [Function.comp_apply, List.getElem?_map]

theorem roundRobin_key_nodup (k : Nat) (groups : List (List Paper))
    (h1 : ∀ g ∈ groups, (g.map Paper.id).Nodup)
    (h2 : List.Pairwise List.Disjoint (groups.map (fun g => g.map Paper.id))) :
    ((roundRobin k groups).map Paper.id).Nodup := by
  rw [roundRobin_map]
  refine roundRobin_nodup k _ ?_ h2
  intro g hg
  rw [List.mem_map] at hg
  obtain ⟨g', hg', rfl⟩ := hg
  exact h1 g' hg'

theorem GroupsOk.initial (valid : List Paper) :
    GroupsOk (∅ : Finset Nat) [] valid := by
  refine ⟨?_, ?_, ?_, ?_⟩ <;> simp

theorem tag_search_ids_nodup (db : Corpus) (now : Int) (ctx : SearchContext)
    (timeEx : Nat → Bool) :
    ((tag_search db now ctx timeEx).1.map Paper.id).Nodup := by
  simp only [tag_search]
  split
  · simp
  · have hok := tag_loop_ok db (get_valid_papers db now ctx none).1
      RESULTS_PER_PAGE timeEx (source_papers db (ctx.parsed_tag_for_search.getD []))
      0 ⟨[], ∅, 0, max 1 (RESULTS_PER_PAGE / max 1 (source_papers db (ctx.parsed_tag_for_search.getD [])).length) + 1⟩
      (GroupsOk.initial _)
    exact roundRobin_key_nodup _ _ hok.1 hok.2.1

theorem tag_search_sub_valid (db : Corpus) (now : Int) (ctx : SearchContext)
    (timeEx : Nat → Bool) :
    ∀ p ∈ (tag_search db now ctx timeEx).1,
      p ∈ (get_valid_papers db now ctx none).1 := by
  intro p hp
  simp only [tag_search] at hp
  split at hp
  · simp at hp
  · have hok := tag_loop_ok db (get_valid_papers db now ctx none).1
      RESULTS_PER_PAGE timeEx (source_papers db (ctx.parsed_tag_for_search.getD []))
      0 ⟨[], ∅, 0, max 1 (RESULTS_PER_PAGE / max 1 (source_papers db (ctx.parsed_tag_for_search.getD [])).length) + 1⟩
      (GroupsOk.initial _)
    obtain ⟨g, hg, hpg⟩ := mem_roundRobin hp
    exact hok.2.2.2 g hg p hpg

/-! ## Helper lemmas: filter membership -/

theorem mem_updatedExclude (ctx : SearchContext) (cp : Option Paper) (x : Nat) :
    x ∈ updatedExclude ctx cp ↔
      x ∈ ctx.exclude_ids ∨ x ∈ ctx.current_tag.getD [] ∨
        ∃ q, cp = some q ∧ x = q.id := by
  unfold updatedExclude
  cases ctx.current_tag <;> cases cp <;>
    simp [Finset.mem_insert, Finset.mem_union] <;> tauto

theorem get_valid_papers_snd (db : Corpus) (now : Int) (ctx : SearchContext)
    (cp : Option Paper) :
    (get_valid_papers db now ctx cp).2 = updatedExclude ctx cp := by
  simp only [get_valid_papers]

theorem mem_get_valid_papers {db : Corpus} {now : Int} {ctx : SearchContext}
    {cp : Option Paper} {p : Paper}
    (h : p ∈ (get_valid_papers db now ctx cp).1) :
    p ∈ db.papers ∧ p.id ∉ updatedExclude ctx cp ∧
    (∀ c, get_date_cutoff now ctx.date_filter = some c → c ≤ p.created) ∧
    (ctx.category_filter ≠ "" → ctx.category_filter ∈ p.categories) := by
  simp only [get_valid_papers] at h
  by_cases hcat : ctx.category_filter = "" <;>
    cases hd : get_date_cutoff now ctx.date_filter <;>
    simp only [hcat, hd, ne_eq, not_true_eq_false, not_false_eq_true,
      ite_true, ite_false, if_true, if_false, List.mem_filter,
      decide_eq_true_eq] at h
  · exact ⟨h.1, h.2, by simp, by simp [hcat]⟩
  · exact ⟨h.1.1, h.1.2, by intro c hc; injection hc with hc; omega, by simp [hcat]⟩
  · exact ⟨h.1.1, h.1.2, by simp, fun _ => h.2⟩
  · exact ⟨h.1.1.1, h.1.1.2, by intro c hc; injection hc with hc; omega, fun _ => h.2⟩

theorem keyword_search_sub_valid (db : Corpus) (now : Int)
    (ctx : SearchContext) :
    ∀ p ∈ (keyword_search db now ctx).1, p ∈ (get_valid_papers db now ctx none).1 := by
  intro p hp
  simp only [keyword_search] at hp
  have h1 := List.take_subset _ _ hp
  rw [List.mem_insertionSort] at h1
  exact (List.mem_filter.mp h1).1

theorem title_search_sub_valid (db : Corpus) (now : Int) (ctx : SearchContext) :
    ∀ p ∈ (title_search db now ctx).1, p ∈ (get_valid_papers db now ctx none).1 := by
  intro p hp
  simp only [title_search] at hp
  have h1 := List.take_subset _ _ hp
  rw [List.mem_insertionSort] at h1
  exact (List.mem_filter.mp h1).1

theorem get_similar_len (db : Corpus) (paper : Paper) (valid : List Paper)
    (n : Nat) : (get_similar_embeddings db paper valid n).length ≤ n := by
  unfold get_similar_embeddings
  split
  · simp
  · simp

theorem keyword_search_len (db : Corpus) (now : Int) (ctx : SearchContext) :
    (keyword_search db now ctx).1.length ≤ RESULTS_PER_PAGE := by
  simp only [keyword_search]
  simp

theorem title_search_len (db : Corpus) (now : Int) (ctx : SearchContext) :
    (title_search db now ctx).1.length ≤ RESULTS_PER_PAGE := by
  simp only [title_search]
  simp

/-- The resolved filter predicate of the spec's "Filter composition"
property: date cutoff respected, category contained, and none of the
exclusions (request set, drawer scope tag members, similarity source)
present in the output. -/
def ValidPred (now : Int) (ctx : SearchContext) (source : Option Paper)
    (p : Paper) : Prop :=
  p.id ∉ ctx.exclude_ids ∧
  p.id ∉ ctx.current_tag.getD [] ∧
  (∀ q, source = some q → p.id ≠ q.id) ∧
  (∀ c, get_date_cutoff now ctx.date_filter = some c → c ≤ p.created) ∧
  (ctx.category_filter ≠ "" → ctx.category_filter ∈ p.categories)

theorem validPred_of_mem {db : Corpus} {now : Int} {ctx : SearchContext}
    {cp : Option Paper} {p : Paper}
    (h : p ∈ (get_valid_papers db now ctx cp).1) : ValidPred now ctx cp p := by
  obtain ⟨_, hx, hd, hc⟩ := mem_get_valid_papers h
  rw [mem_updatedExclude] at hx
  push_neg at hx
  exact ⟨hx.1, hx.2.1, fun q hq he => hx.2.2 q hq he, hd, hc⟩

/-! ## Helper lemmas: dispatch analysis -/

theorem dispatchModel_spec (db : Corpus) (now : Int) (timeEx : Nat → Bool)
    (ctx : SearchContext)
    (r : List Paper × Finset Nat × Option String × Option Paper)
    (h : dispatchModel db now timeEx ctx = some r) :
    (ctx.query_error.isSome = true ∧ r = ([], ctx.exclude_ids, none, none)) ∨
    (ctx.query_error = none ∧ truthy ctx.single_paper_id = true ∧
      ∃ papers ex src, paper_search db now ctx = some (papers, ex, src) ∧
        r = (papers, ex, some "single_paper", some src)) ∨
    (ctx.query_error = none ∧ ¬ truthy ctx.single_paper_id = true ∧
      (truthy ctx.search_all_tag && ctx.parsed_tag_for_search.isSome) = true ∧
      r = ((tag_search db now ctx timeEx).1, (tag_search db now ctx timeEx).2,
        some "tag_all", none)) ∨
    (ctx.query_error = none ∧ ¬ truthy ctx.single_paper_id = true ∧
      truthy ctx.title_query = true ∧
      r = ((title_search db now ctx).1, (title_search db now ctx).2,
        some "title", none)) ∨
    (ctx.query_error = none ∧ ¬ truthy ctx.single_paper_id = true ∧
      ctx.actual_query ≠ "" ∧
      r = ((keyword_search db now ctx).1, (keyword_search db now ctx).2,
        some "keyword", none)) ∨
    (ctx.query_error = none ∧ ¬ truthy ctx.single_paper_id = true ∧
      r = ([], ctx.exclude_ids, none, none)) := by
  unfold dispatchModel at h
  split at h
  · rename_i herr
    exact Or.inl ⟨herr, (Option.some.injEq _ _).mp h |>.symm⟩
  · rename_i herr
    rw [Option.not_isSome_iff_eq_none] at herr
    split at h
    · rename_i hsp
      refine Or.inr (Or.inl ⟨herr, hsp, ?_⟩)
      cases hps : paper_search db now ctx with
      | none => rw [hps] at h; exact absurd h (by simp)
      | some t =>
        obtain ⟨papers, ex, src⟩ := t
        rw [hps] at h
        exact ⟨papers, ex, src, rfl, ((Option.some.injEq _ _).mp h).symm⟩
    · rename_i hnsp
      split at h
      · rename_i htag
        exact Or.inr (Or.inr (Or.inl
          ⟨herr, hnsp, htag, ((Option.some.injEq _ _).mp h).symm⟩))
      · split at h
        · rename_i htitle
          exact Or.inr (Or.inr (Or.inr (Or.inl
            ⟨herr, hnsp, htitle, ((Option.some.injEq _ _).mp h).symm⟩)))
        · split at h
          · rename_i hq
            exact Or.inr (Or.inr (Or.inr (Or.inr (Or.inl
              ⟨herr, hnsp, hq, ((Option.some.injEq _ _).mp h).symm⟩))))
          · exact Or.inr (Or.inr (Or.inr (Or.inr (Or.inr
              ⟨herr, hnsp, ((Option.some.injEq _ _).mp h).symm⟩))))

theorem searchModel_spec (db : Corpus) (now : Int) (timeEx : Nat → Bool)
    (req : Request) (o : SearchOutcome)
    (h : searchModel db now timeEx req = some o) :
    o.query_error = (make_context db req).query_error ∧
    o.has_more = (decide (o.papers ≠ []) &&
      decide (o.exclude_after.card + RESULTS_PER_PAGE < MAX_RESULTS)) ∧
    ∃ r, dispatchModel db now timeEx (make_context db req) = some r ∧
      o.papers = r.1 ∧ o.exclude_after = r.2.1 ∧ o.search_type = r.2.2.1 ∧
      o.source_paper = r.2.2.2 := by
  unfold searchModel at h
  cases hd : dispatchModel db now timeEx (make_context db req) with
  | none => rw [hd] at h; exact absurd h (by simp)
  | some r =>
    obtain ⟨papers, ex, ty, src⟩ := r
    rw [hd] at h
    rw [Option.some.injEq] at h
    subst h
    exact ⟨rfl, rfl, (papers, ex, ty, src), rfl, rfl, rfl, rfl, rfl⟩

/-! ## Concrete corpora, contexts and requests for witnesses and
counterexamples -/

def mkPaper (i : Nat) : Paper := ⟨i, toString i, "", "", 0, []⟩

/-- Neutral search context: no filters, no exclusions, no structured query. -/
def baseCtx : SearchContext :=
  { query := "", date_filter := "all", category_filter := ""
    single_paper_id := none, search_all_tag := none, title_query := none
    exclude_ids := ∅, query_error := none, parsed_tag_for_search := none
    current_tag := none, actual_query := "" }

/-- Seven tag sources (only papers 1 and 2 carry embeddings) and five
candidates 10-14; source 1 ranks them 10,11,12,13,14 and source 2 ranks
them 10,13,14,11,12. -/
def dbC1 : Corpus :=
  { papers := [mkPaper 1, mkPaper 2, mkPaper 3, mkPaper 4, mkPaper 5,
      mkPaper 6, mkPaper 7, mkPaper 10, mkPaper 11, mkPaper 12,
      mkPaper 13, mkPaper 14]
    hasEmbedding := fun i => i = 1 || i = 2 || (10 ≤ i && i ≤ 14)
    dist := fun s c =>
      if s = 1 then
        (if c = 10 then 0 else if c = 11 then 1 else if c = 12 then 2
          else if c = 13 then 3 else 4)
      else
        (if c = 10 then 0 else if c = 13 then 1 else if c = 14 then 2
          else if c = 11 then 8 else 9)
    matchesQuery := fun _ _ => false
    rank := fun _ _ => 0 }

def ctxC1 : SearchContext :=
  { baseCtx with
    search_all_tag := some "1"
    exclude_ids := {1, 2, 3, 4, 5, 6, 7}
    parsed_tag_for_search := some [1, 2, 3, 4, 5, 6, 7] }

/-- Two tag sources that are each other's (and their own) nearest
neighbours; nothing excludes them from the candidate set. -/
def dbC2 : Corpus :=
  { papers := [mkPaper 1, mkPaper 2]
    hasEmbedding := fun _ => true
    dist := fun s c => if s = c then 0 else 5
    matchesQuery := fun _ _ => false
    rank := fun _ _ => 0 }

def ctxC2 : SearchContext :=
  { baseCtx with
    search_all_tag := some "1"
    parsed_tag_for_search := some [1, 2] }

/-- A corpus with exactly one paper matching the keyword query `hello`. -/
def dbC3 : Corpus :=
  { papers := [⟨1, "a1", "t", "a", 0, []⟩]
    hasEmbedding := fun _ => false
    dist := fun _ _ => 0
    matchesQuery := fun q p => q = "hello" && p.id = 1
    rank := fun _ _ => 0 }

def reqC3 : Request :=
  { q := "hello", date_filter := "all", category := ""
    single_paper := none, search_all := none, exclude_ids := ∅
    authenticated := false, user_tags := [], tag_param := none }

/-- Paper 1 is resolvable from the query text (`paper: 2301.00001`) while
the request also carries an explicit `single_paper = "2"`. -/
def dbC4 : Corpus :=
  { papers := [⟨1, "2301.00001", "t", "a", 0, []⟩,
      ⟨2, "9999.99999", "u", "b", 0, []⟩]
    hasEmbedding := fun _ => true
    dist := fun _ _ => 1
    matchesQuery := fun _ _ => false
    rank := fun _ _ => 0 }

def reqC4 : Request :=
  { q := "paper: 2301.00001", date_filter := "all", category := ""
    single_paper := some "2", search_all := none, exclude_ids := ∅
    authenticated := false, user_tags := [], tag_param := none }

def reqC4b : Request :=
  { q := "hello", date_filter := "all", category := ""
    single_paper := some "9", search_all := none, exclude_ids := ∅
    authenticated := false, user_tags := [], tag_param := none }

/-- An authenticated request selecting tag search through the query text;
the user's tag `ml` has no members. -/
def reqC4tag : Request :=
  { q := "tag: ml", date_filter := "all", category := ""
    single_paper := none, search_all := none, exclude_ids := ∅
    authenticated := true, user_tags := [("ml", [])], tag_param := none }

def oC4tag : SearchOutcome :=
  { papers := [], has_more := false, query_error := none
    search_type := some "tag_all", exclude_after := ∅, source_paper := none }

/-- One tag source and 21 candidates within filters, so the per-source
depth is `20 / 1 + 1 = 21`. -/
def dbC5 : Corpus :=
  { papers := mkPaper 1 :: (List.range 21).map (fun j => mkPaper (10 + j))
    hasEmbedding := fun _ => true
    dist := fun _ c => c
    matchesQuery := fun _ _ => false
    rank := fun _ _ => 0 }

def ctxC5 : SearchContext :=
  { baseCtx with
    search_all_tag := some "1"
    exclude_ids := {1}
    parsed_tag_for_search := some [1] }

/-- A paper whose internal id `5` is not an `arxiv_id` of any paper. -/
def dbC6 : Corpus :=
  { papers := [⟨5, "2301.00001", "t", "a", 0, []⟩]
    hasEmbedding := fun _ => true
    dist := fun _ _ => 0
    matchesQuery := fun _ _ => false
    rank := fun _ _ => 0 }

def pC6 : Paper := ⟨5, "2301.00001", "t", "a", 0, []⟩

/-- A keyword-matching paper created 30 days before `now = 0`. -/
def dbC7 : Corpus :=
  { papers := [⟨1, "a1", "t", "a", -30, []⟩]
    hasEmbedding := fun _ => false
    dist := fun _ _ => 0
    matchesQuery := fun q _ => q = "hello"
    rank := fun _ _ => 0 }

def pC7 : Paper := ⟨1, "a1", "t", "a", -30, []⟩

def reqC7 : Request :=
  { q := "hello", date_filter := "", category := ""
    single_paper := none, search_all := none, exclude_ids := ∅
    authenticated := false, user_tags := [], tag_param := none }

def reqC7all : Request :=
  { q := "hello", date_filter := "all", category := ""
    single_paper := none, search_all := none, exclude_ids := ∅
    authenticated := false, user_tags := [], tag_param := none }

/-- An authenticated request for a tag the user does not have. -/
def reqC8 : Request :=
  { q := "tag: nope", date_filter := "", category := ""
    single_paper := none, search_all := none, exclude_ids := ∅
    authenticated := true, user_tags := [], tag_param := none }

def oC8 : SearchOutcome :=
  { papers := [], has_more := false
    query_error := some "Tag \x27nope\x27 does not exist"
    search_type := none, exclude_after := ∅, source_paper := none }

/-- A corpus with no embeddings at all. -/
def dbC8 : Corpus :=
  { papers := [mkPaper 1, mkPaper 2]
    hasEmbedding := fun _ => false
    dist := fun _ _ => 0
    matchesQuery := fun _ _ => false
    rank := fun _ _ => 0 }

def ctxC8tag : SearchContext :=
  { baseCtx with
    search_all_tag := some "1"
    parsed_tag_for_search := some [] }

/-- Source paper 1, drawer scope tag with members 7 and 8, and candidate 9;
everything carries an embedding. -/
def dbC10 : Corpus :=
  { papers := [⟨1, "a1", "t", "a", 0, []⟩, ⟨7, "a7", "t", "a", 0, []⟩,
      ⟨8, "a8", "t", "a", 0, []⟩, ⟨9, "a9", "t", "a", 0, []⟩]
    hasEmbedding := fun _ => true
    dist := fun _ _ => 1
    matchesQuery := fun _ _ => false
    rank := fun _ _ => 0 }

def reqC10 : Request :=
  { q := "", date_filter := "all", category := ""
    single_paper := some "1", search_all := none, exclude_ids := ∅
    authenticated := true, user_tags := [], tag_param := some [7, 8] }

def oC10 : SearchOutcome :=
  { papers := [⟨9, "a9", "t", "a", 0, []⟩], has_more := true
    query_error := none, search_type := some "single_paper"
    exclude_after := {1, 7, 8}, source_paper := some ⟨1, "a1", "t", "a", 0, []⟩ }

/-- Context of the single-paper search issued by `reqC10`. -/
def ctxC10 : SearchContext :=
  { baseCtx with
    single_paper_id := some "1"
    current_tag := some [7, 8] }

/-! ## Claim theorems -/

/-- C1 (amended): every multi-source (tag) similarity retrieval returns a
sequence containing no paper id twice.  The sequence is the round-robin
interleave of per-source result groups that were deduplicated sequentially
in source-processing order *before* interleaving — a paper nearest to two
sources is credited to the earlier-processed source's whole fetched list —
which in general differs from the spec's interleave-then-first-occurrence
deduplication. -/
theorem C1_tag_interleave_nodup (db : Corpus) (now : Int) (ctx : SearchContext)
    (timeEx : Nat → Bool) :
    ((tag_search db now ctx timeEx).1.map Paper.id).Nodup :=
  tag_search_ids_nodup db now ctx timeEx

/-- C1 counterexample: a tag retrieval over seven sources (two with
embeddings) and five candidates whose output `[10, 13, 11, 14, 12]` differs
from the spec's interleave-then-dedup sequence `[10, 11, 13, 12, 14]`:
paper 13 sits in source 2's round 1 of the spec interleave, but the code
first strips source 2's round-0 entry (10, already credited to source 1)
and then compacts, moving 13 into round 0. -/
theorem C1_counterexample :
    (tag_search dbC1 0 ctxC1 (fun _ => false)).1.map Paper.id =
      [10, 13, 11, 14, 12] ∧
    (spec_interleave_dedup dbC1 (get_valid_papers dbC1 0 ctxC1 none).1
      (source_papers dbC1 [1, 2, 3, 4, 5, 6, 7]) 3).map Paper.id =
      [10, 11, 13, 12, 14] ∧
    (tag_search dbC1 0 ctxC1 (fun _ => false)).1 ≠
      spec_interleave_dedup dbC1 (get_valid_papers dbC1 0 ctxC1 none).1
        (source_papers dbC1 [1, 2, 3, 4, 5, 6, 7]) 3 :=
  ⟨by decide, by decide, by decide⟩

/-- C2 (amended): every paper returned by keyword, title, single-paper or
tag retrieval satisfies the resolved filter predicate — date cutoff,
category containment, absence from the request's `exclude_ids` and from the
drawer scope tag's members, and (for single-paper search) distinctness from
the query source paper.  The claim's further guarantee that the source
papers of a *multi-source tag* search never appear in the output does not
hold: they are excluded only when they belong to the drawer scope tag (see
the counterexample). -/
theorem C2_filters_respected (db : Corpus) (now : Int) (ctx : SearchContext)
    (timeEx : Nat → Bool) :
    (∀ p ∈ (keyword_search db now ctx).1, ValidPred now ctx none p) ∧
    (∀ p ∈ (title_search db now ctx).1, ValidPred now ctx none p) ∧
    (∀ papers ex src, paper_search db now ctx = some (papers, ex, src) →
      ∀ p ∈ papers, ValidPred now ctx (some src) p) ∧
    (∀ p ∈ (tag_search db now ctx timeEx).1, ValidPred now ctx none p) := by
  refine ⟨?_, ?_, ?_, ?_⟩
  · intro p hp
    exact validPred_of_mem (keyword_search_sub_valid db now ctx p hp)
  · intro p hp
    exact validPred_of_mem (title_search_sub_valid db now ctx p hp)
  · intro papers ex src h p hp
    unfold paper_search at h
    cases hres : resolve_paper_param db (ctx.single_paper_id.getD "") with
    | none => rw [hres] at h; exact absurd h (by simp)
    | some paper =>
      simp only [hres, Option.some.injEq, Prod.mk.injEq] at h
      obtain ⟨h1, _, h3⟩ := h
      subst h3
      rw [← h1] at hp
      exact validPred_of_mem (get_similar_sub db paper _ _ p hp)
  · intro p hp
    exact validPred_of_mem (tag_search_sub_valid db now ctx timeEx p hp)

/-- C2 witness: the four conjuncts applied at concrete retrievals — the
keyword match of `dbC3`, a tag result of `dbC1`, and the single-paper
result 9 of `dbC10` (whose drawer scope tag is `[7, 8]` and source is 1). -/
theorem C2_witness :
    ValidPred 0 (make_context dbC3 reqC3) none ⟨1, "a1", "t", "a", 0, []⟩ ∧
    ValidPred 0 ctxC10 (some ⟨1, "a1", "t", "a", 0, []⟩)
      ⟨9, "a9", "t", "a", 0, []⟩ ∧
    ValidPred 0 ctxC1 none (mkPaper 10) :=
  ⟨(C2_filters_respected dbC3 0 (make_context dbC3 reqC3) (fun _ => false)).1
      ⟨1, "a1", "t", "a", 0, []⟩ (by decide),
   (C2_filters_respected dbC10 0 ctxC10 (fun _ => false)).2.2.1
      [⟨9, "a9", "t", "a", 0, []⟩] {1, 7, 8} ⟨1, "a1", "t", "a", 0, []⟩
      (by decide) ⟨9, "a9", "t", "a", 0, []⟩ (by decide),
   (C2_filters_respected dbC1 0 ctxC1 (fun _ => false)).2.2.2
      (mkPaper 10) (by decide)⟩

/-- C2 counterexample: in a tag search via the `tag: X` query path with no
drawer scope tag, the tag's own member papers 1 and 2 — the query source
papers — are the entire output (each is its own nearest neighbour), so a
source paper of a similarity search does appear in the output. -/
theorem C2_counterexample :
    (tag_search dbC2 0 ctxC2 (fun _ => false)).1.map Paper.id = [1, 2] ∧
    ctxC2.parsed_tag_for_search = some [1, 2] :=
  ⟨by decide, by decide⟩

/-- C5 (amended): keyword, title and single-paper retrieval hand the result
assembler at most RESULTS_PER_PAGE papers, and multi-source tag retrieval
always hands it a deduplicated list; but tag retrieval's list may exceed
RESULTS_PER_PAGE, because the per-source depth `max(1, N/|sources|) + 1`
lets the final processed source overshoot the cap before the count check
(see the counterexample with 21 results). -/
theorem C5_page_caps (db : Corpus) (now : Int) (ctx : SearchContext)
    (timeEx : Nat → Bool) :
    (keyword_search db now ctx).1.length ≤ RESULTS_PER_PAGE ∧
    (title_search db now ctx).1.length ≤ RESULTS_PER_PAGE ∧
    (∀ papers ex src, paper_search db now ctx = some (papers, ex, src) →
      papers.length ≤ RESULTS_PER_PAGE) ∧
    ((tag_search db now ctx timeEx).1.map Paper.id).Nodup := by
  refine ⟨keyword_search_len db now ctx, title_search_len db now ctx, ?_,
    tag_search_ids_nodup db now ctx timeEx⟩
  intro papers ex src h
  unfold paper_search at h
  cases hres : resolve_paper_param db (ctx.single_paper_id.getD "") with
  | none => rw [hres] at h; exact absurd h (by simp)
  | some paper =>
    simp only [hres, Option.some.injEq, Prod.mk.injEq] at h
    obtain ⟨h1, _⟩ := h
    rw [← h1]
    exact get_similar_len db paper _ RESULTS_PER_PAGE

/-- C5 witness: the caps at a concrete keyword retrieval and a concrete
single-paper retrieval (result `[9]` of `dbC10`), and dedup at a concrete
tag retrieval. -/
theorem C5_witness :
    (keyword_search dbC3 0 (make_context dbC3 reqC3)).1.length ≤
      RESULTS_PER_PAGE ∧
    [(⟨9, "a9", "t", "a", 0, []⟩ : Paper)].length ≤ RESULTS_PER_PAGE ∧
    ((tag_search dbC1 0 ctxC1 (fun _ => false)).1.map Paper.id).Nodup :=
  ⟨(C5_page_caps dbC3 0 (make_context dbC3 reqC3) (fun _ => false)).1,
   (C5_page_caps dbC10 0 ctxC10 (fun _ => false)).2.2.1
      [⟨9, "a9", "t", "a", 0, []⟩] {1, 7, 8} ⟨1, "a1", "t", "a", 0, []⟩
      (by decide),
   (C5_page_caps dbC1 0 ctxC1 (fun _ => false)).2.2.2⟩

/-- C5 counterexample: a tag retrieval with a single source and 21
candidates fetches `20 / 1 + 1 = 21` similars for that source and returns
all 21 of them — one more than RESULTS_PER_PAGE. -/
theorem C5_counterexample :
    (tag_search dbC5 0 ctxC5 (fun _ => false)).1.length = 21 ∧
    RESULTS_PER_PAGE = 20 :=
  ⟨by decide, by decide⟩

/-- C9 (amended): the LaTeX normalizer maps `\textbf{x}` to
`<strong>x</strong>` and is a no-op on that output, but it is not
idempotent for every input: `\textbackslash%` normalizes to `\%`, which a
second application rewrites further to `%`, because the escape
substitutions run before the `\textbackslash` one and the backslash the
latter produces can form a new escape sequence. -/
theorem C9_normalizer :
    process_latex_commands "\\textbf\x7bx\x7d" = "<strong>x</strong>" ∧
    process_latex_commands "<strong>x</strong>" = "<strong>x</strong>" ∧
    process_latex_commands "\\textbackslash%" = "\\%" ∧
    process_latex_commands "\\%" = "%" :=
  ⟨by decide, by decide, by decide, by decide⟩

/-- C9 counterexample: idempotence fails at `\textbackslash%`. -/
theorem C9_counterexample :
    process_latex_commands (process_latex_commands "\\textbackslash%") ≠
      process_latex_commands "\\textbackslash%" := by decide

/-- Outcome of the keyword request `reqC3` on `dbC3`. -/
def oC3 : SearchOutcome :=
  { papers := [⟨1, "a1", "t", "a", 0, []⟩], has_more := true
    query_error := none, search_type := some "keyword"
    exclude_after := ∅, source_paper := none }

/-- C3 (amended): `has_more` is true iff the returned page is nonempty and
the size of the (possibly enlarged) request exclusion set plus
RESULTS_PER_PAGE is below MAX_RESULTS.  It does not test whether further
raw results beyond the page cap exist, so a page that already shows every
matching paper still reports `has_more = true`. -/
theorem C3_has_more_formula (db : Corpus) (now : Int) (timeEx : Nat → Bool)
    (req : Request) (o : SearchOutcome)
    (h : searchModel db now timeEx req = some o) :
    o.has_more = true ↔
      o.papers ≠ [] ∧ o.exclude_after.card + RESULTS_PER_PAGE < MAX_RESULTS := by
  obtain ⟨-, h2, -⟩ := searchModel_spec db now timeEx req o h
  rw [h2]
  simp

/-- C3 witness: the biconditional instantiated at the concrete keyword
search of `dbC3`. -/
theorem C3_witness :
    oC3.has_more = true ↔
      oC3.papers ≠ [] ∧ oC3.exclude_after.card + RESULTS_PER_PAGE < MAX_RESULTS :=
  C3_has_more_formula dbC3 0 (fun _ => false) reqC3 oC3 (by decide)

/-- C3 counterexample: the corpus has exactly one matching paper, the page
shows it (no raw results beyond the cap exist), yet `has_more` is true —
contradicting the claim that `has_more` requires more raw results beyond
the RESULTS_PER_PAGE cap. -/
theorem C3_counterexample :
    (searchModel dbC3 0 (fun _ => false) reqC3).map SearchOutcome.has_more =
      some true ∧
    (searchModel dbC3 0 (fun _ => false) reqC3).map
      (fun o => o.papers.length) = some 1 ∧
    (keyword_matches dbC3 0 (make_context dbC3 reqC3)).length = 1 ∧
    RESULTS_PER_PAGE = 20 :=
  ⟨by decide, by decide, by decide, by decide⟩

/-- C4 (amended): when the query text parses to a structured strategy the
parsed value wins over the explicitly passed parameter, not the other way
round: `single_paper_id` is the parsed id whenever parsing succeeded, and
the explicit `single_paper` parameter is used only otherwise; moreover tag
retrieval runs only when a tag was parsed from the query text, so an
explicit `search_all` parameter alone never selects it. -/
theorem C4_parsed_priority (db : Corpus) (now : Int) (timeEx : Nat → Bool)
    (req : Request) :
    (∀ s, (classify_query db req.authenticated req.user_tags
        (pyStrip req.q)).parsed_single_paper_id = some s →
      (make_context db req).single_paper_id = some s) ∧
    ((classify_query db req.authenticated req.user_tags
        (pyStrip req.q)).parsed_single_paper_id = none →
      (make_context db req).single_paper_id = req.single_paper) ∧
    (∀ o, searchModel db now timeEx req = some o →
      o.search_type = some "tag_all" →
      (make_context db req).parsed_tag_for_search.isSome = true) := by
  refine ⟨?_, ?_, ?_⟩
  · intro s hs
    simp [make_context, hs, Option.orElse]
  · intro hs
    simp [make_context, hs, Option.orElse]
  · intro o h hty
    obtain ⟨-, -, r, hd, -, -, hty', -⟩ := searchModel_spec db now timeEx req o h
    rw [hty'] at hty
    rcases dispatchModel_spec db now timeEx (make_context db req) r hd with
      ⟨-, hr⟩ | ⟨-, -, papers, ex, src, -, hr⟩ | ⟨-, -, hcond, -⟩ |
      ⟨-, -, -, hr⟩ | ⟨-, -, -, hr⟩ | ⟨-, -, hr⟩
    · rw [hr] at hty; simp at hty
    · rw [hr] at hty; simp at hty
    · simp only [Bool.and_eq_true] at hcond
      exact hcond.2
    · rw [hr] at hty; simp at hty
    · rw [hr] at hty; simp at hty
    · rw [hr] at hty; simp at hty

/-- C4 witness: the parsed id 1 wins over the explicit `single_paper = 2`
in `reqC4`; the explicit parameter is used when nothing parses (`reqC4b`);
and the concrete tag-search outcome of `reqC4tag` indeed carries a parsed
tag. -/
theorem C4_witness :
    (make_context dbC4 reqC4).single_paper_id = some "1" ∧
    (make_context dbC4 reqC4b).single_paper_id = some "9" ∧
    (make_context dbC4 reqC4tag).parsed_tag_for_search.isSome = true :=
  ⟨(C4_parsed_priority dbC4 0 (fun _ => false) reqC4).1 "1" (by decide),
   (C4_parsed_priority dbC4 0 (fun _ => false) reqC4b).2.1 (by decide),
   (C4_parsed_priority dbC4 0 (fun _ => false) reqC4tag).2.2 oC4tag
     (by decide) (by decide)⟩

/-- C4 counterexample: with `q = "paper: 2301.00001"` (resolving to paper
1) and an explicit `single_paper = "2"`, the executed similarity search
uses paper 1 — the value derived from the query text — not the
explicitly-passed paper 2. -/
theorem C4_counterexample :
    (searchModel dbC4 0 (fun _ => false) reqC4).map
      (fun o => o.source_paper.map Paper.id) = some (some 1) ∧
    reqC4.single_paper = some "2" ∧ (1 : Nat) ≠ 2 :=
  ⟨by decide, by decide, by decide⟩

/-- C6 (amended): a `paper: <id>` query resolves the stripped id **only as
the external arxiv_id** — the internal-id-first fallback applies only to
the explicit `single_paper` parameter — storing the resolved paper's
internal id on success and yielding the typed paper-not-found error
otherwise, even when the id is a valid internal id; and whenever the
context carries a truthy single-paper id and no classifier error, the
dispatched strategy is single-paper similarity retrieval. -/
theorem C6_paper_lookup (db : Corpus) (auth : Bool)
    (tags : List (String × List Nat)) (raw g : String) (now : Int)
    (timeEx : Nat → Bool) (req : Request)
    (htg : matchColonCmd ("tag:".toList) raw = none)
    (hpp : matchColonCmd ("paper:".toList) raw = some g) :
    (∀ p, db.papers.find? (fun q => q.arxiv_id = pyStrip g) = some p →
      classify_query db auth tags raw =
        ⟨some (toString p.id), none, none, none, "", none⟩) ∧
    (db.papers.find? (fun q => q.arxiv_id = pyStrip g) = none →
      classify_query db auth tags raw =
        ⟨none, none, none, none, raw,
          some ("Paper with arXiv ID \x27" ++ pyStrip g ++
            "\x27 does not exist")⟩) ∧
    (∀ o, searchModel db now timeEx req = some o →
      truthy (make_context db req).single_paper_id = true →
      (make_context db req).query_error = none →
      o.search_type = some "single_paper") := by
  have hraw : ¬ raw = "" := by
    intro he; rw [he] at hpp; simp [matchColonCmd, dropLit] at hpp
  refine ⟨?_, ?_, ?_⟩
  · intro p hp
    unfold classify_query
    rw [if_neg hraw, htg, hpp]
    simp only []
    rw [hp]
  · intro hp
    unfold classify_query
    rw [if_neg hraw, htg, hpp]
    simp only []
    rw [hp]
  · intro o h htr herr
    obtain ⟨-, -, r, hd, -, -, hty', -⟩ := searchModel_spec db now timeEx req o h
    rcases dispatchModel_spec db now timeEx (make_context db req) r hd with
      ⟨hsome, -⟩ | ⟨-, -, papers, ex, src, -, hr⟩ | ⟨-, hn, -, -⟩ |
      ⟨-, hn, -, -⟩ | ⟨-, hn, -, -⟩ | ⟨-, hn, -⟩
    · rw [herr] at hsome; simp at hsome
    · rw [hty', hr]
    · exact absurd htr hn
    · exact absurd htr hn
    · exact absurd htr hn
    · exact absurd htr hn

/-- C6 witness: resolution through the arxiv_id succeeds for
`paper: 2301.00001` (internal id 5 is stored) and fails with the typed
error for `paper: zzz`. -/
theorem C6_witness :
    classify_query dbC6 true [] "paper: 2301.00001" =
      ⟨some "5", none, none, none, "", none⟩ ∧
    classify_query dbC6 true [] "paper: zzz" =
      ⟨none, none, none, none, "paper: zzz",
        some "Paper with arXiv ID \x27zzz\x27 does not exist"⟩ :=
  ⟨(C6_paper_lookup dbC6 true [] "paper: 2301.00001" "2301.00001" 0
      (fun _ => false) reqC3 (by decide) (by decide)).1 pC6 (by decide),
   (C6_paper_lookup dbC6 true [] "paper: zzz" "zzz" 0
      (fun _ => false) reqC3 (by decide) (by decide)).2.1 (by decide)⟩

/-- C6 counterexample: `paper: 5` yields the typed paper-not-found error
although 5 is the internal surrogate id of an existing paper — the query
prefix path never attempts internal-id resolution. -/
theorem C6_counterexample :
    (classify_query dbC6 true [] "paper: 5").query_error =
      some "Paper with arXiv ID \x275\x27 does not exist" ∧
    (classify_query dbC6 true [] "paper: 5").parsed_single_paper_id = none ∧
    (dbC6.papers.find? (fun p => decide (p.id = 5))).isSome = true :=
  ⟨by decide, by decide, by decide⟩

/-- C7 (amended): when no `date_filter` is supplied, the unified view
defaults **every** search type — keyword and title included — to `1week`;
only the legacy view defaults keyword search to `all` (and its similarity
searches to `1week`).  Unknown tokens yield no cutoff, i.e. behave as
`all`, in both views and for every search type. -/
theorem C7_date_defaults (db : Corpus) (req : Request) (now : Int)
    (t : String) :
    (req.date_filter = "" → (make_context db req).date_filter = "1week") ∧
    (req.date_filter ≠ "" →
      (make_context db req).date_filter = req.date_filter) ∧
    (t ∉ ["all", "1day", "3day", "1week", "1month", "3months", "6months",
        "1year", "2years"] → get_date_cutoff now t = none) ∧
    (legacy_keyword_date_filter "" = "all" ∧
      legacy_similarity_date_filter "" = "1week") ∧
    (t ∉ ["all", "1week", "1month", "3months", "6months", "1year",
        "2years"] → legacy_get_date_cutoff now t = none) := by
  refine ⟨?_, ?_, ?_, ⟨by decide, by decide⟩, ?_⟩
  · intro h; simp [make_context, h]
  · intro h; simp [make_context, h]
  · intro h
    simp only [List.mem_cons, List.not_mem_nil, or_false, not_or] at h
    obtain ⟨h1, h2, h3, h4, h5, h6, h7, h8, h9⟩ := h
    simp [get_date_cutoff, h1, h2, h3, h4, h5, h6, h7, h8, h9]
  · intro h
    simp only [List.mem_cons, List.not_mem_nil, or_false, not_or] at h
    obtain ⟨h1, h2, h3, h4, h5, h6, h7⟩ := h
    simp [legacy_get_date_cutoff, h1, h2, h3, h4, h5, h6, h7]

/-- C7 witness: the unified default at a keyword request without a
`date_filter`, the pass-through at `all`, and unknown tokens in both
views (`1day` is unknown to the legacy table). -/
theorem C7_witness :
    (make_context dbC7 reqC7).date_filter = "1week" ∧
    (make_context dbC7 reqC7all).date_filter = "all" ∧
    get_date_cutoff 0 "1fortnight" = none ∧
    legacy_get_date_cutoff 0 "1day" = none :=
  ⟨(C7_date_defaults dbC7 reqC7 0 "x").1 (by decide),
   (C7_date_defaults dbC7 reqC7all 0 "x").2.1 (by decide),
   (C7_date_defaults dbC7 reqC7 0 "1fortnight").2.2.1 (by decide),
   (C7_date_defaults dbC7 reqC7 0 "1day").2.2.2.2 (by decide)⟩

/-- C7 counterexample: a keyword search without a `date_filter` applies the
`1week` cutoff (the matching paper created 30 days ago is filtered out),
whereas the same request with `date_filter = all` returns it — so keyword
search does not default to `all` in the unified view. -/
theorem C7_counterexample :
    reqC7.date_filter = "" ∧
    (searchModel dbC7 0 (fun _ => false) reqC7).map
      (fun o => o.papers.map Paper.id) = some [] ∧
    (searchModel dbC7 0 (fun _ => false) reqC7all).map
      (fun o => o.papers.map Paper.id) = some [1] ∧
    dbC7.matchesQuery "hello" pC7 = true :=
  ⟨by decide, by decide, by decide, by decide⟩

/-- C8: a source paper without an embedding row yields `[]` from similarity
retrieval; a tag whose member list resolves to no source papers yields `[]`
from multi-source retrieval; and a classifier error short-circuits the
dispatch to an empty result with no executed strategy, while every executed
strategy carries `query_error = none` — so the populated error field is
distinguishable from a genuine zero-result search. -/
theorem C8_empty_safe (db : Corpus) (now : Int) (ctx : SearchContext)
    (timeEx : Nat → Bool) (paper : Paper) (valid : List Paper) (n : Nat)
    (req : Request) (o : SearchOutcome) :
    (db.hasEmbedding paper.id = false →
      get_similar_embeddings db paper valid n = []) ∧
    (source_papers db (ctx.parsed_tag_for_search.getD []) = [] →
      (tag_search db now ctx timeEx).1 = []) ∧
    (searchModel db now timeEx req = some o →
      (o.query_error.isSome = true → o.papers = [] ∧ o.search_type = none) ∧
      (o.search_type.isSome = true → o.query_error = none)) := by
  refine ⟨?_, ?_, ?_⟩
  · intro h; simp [get_similar_embeddings, h]
  · intro h; simp [tag_search, h]
  · intro h
    obtain ⟨hqe, -, r, hd, hp, -, hty, -⟩ := searchModel_spec db now timeEx req o h
    rcases dispatchModel_spec db now timeEx (make_context db req) r hd with
      ⟨hsome, hr⟩ | ⟨hnone, -, papers, ex, src, -, hr⟩ | ⟨hnone, -, -, hr⟩ |
      ⟨hnone, -, -, hr⟩ | ⟨hnone, -, -, hr⟩ | ⟨hnone, -, hr⟩
    · refine ⟨fun _ => ?_, fun hts => ?_⟩
      · rw [hp, hty, hr]; exact ⟨rfl, rfl⟩
      · rw [hty, hr] at hts; simp at hts
    · refine ⟨fun hse => ?_, fun _ => ?_⟩
      · rw [hqe, hnone] at hse; simp at hse
      · rw [hqe, hnone]
    · refine ⟨fun hse => ?_, fun _ => ?_⟩
      · rw [hqe, hnone] at hse; simp at hse
      · rw [hqe, hnone]
    · refine ⟨fun hse => ?_, fun _ => ?_⟩
      · rw [hqe, hnone] at hse; simp at hse
      · rw [hqe, hnone]
    · refine ⟨fun hse => ?_, fun _ => ?_⟩
      · rw [hqe, hnone] at hse; simp at hse
      · rw [hqe, hnone]
    · refine ⟨fun hse => ?_, fun _ => ?_⟩
      · rw [hqe, hnone] at hse; simp at hse
      · rw [hqe, hnone]

/-- C8 witness: the three empty-safe paths at concrete inputs — an
embeddingless source paper, a memberless tag, and the tag-not-found request
`reqC8` whose outcome `oC8` carries the populated error with an empty
result. -/
theorem C8_witness :
    get_similar_embeddings dbC8 (mkPaper 1) [mkPaper 2] 5 = [] ∧
    (tag_search dbC8 0 ctxC8tag (fun _ => false)).1 = [] ∧
    ((oC8.query_error.isSome = true → oC8.papers = [] ∧ oC8.search_type = none) ∧
      (oC8.search_type.isSome = true → oC8.query_error = none)) :=
  ⟨(C8_empty_safe dbC8 0 ctxC8tag (fun _ => false) (mkPaper 1) [mkPaper 2] 5
      reqC8 oC8).1 (by decide),
   (C8_empty_safe dbC8 0 ctxC8tag (fun _ => false) (mkPaper 1) [mkPaper 2] 5
      reqC8 oC8).2.1 (by decide),
   (C8_empty_safe dbC7 0 ctxC8tag (fun _ => false) (mkPaper 1) [mkPaper 2] 5
      reqC8 oC8).2.2 (by decide)⟩

/-- C10: `get_valid_papers` enlarges the request's exclusion set (in the
Python code, the same set object held in the request context) with the
scope tag's member ids and, for single-paper search, the source paper's id;
consequently after a single-paper similarity retrieval the outcome's
continuation exclusion set is exactly the enlarged set, and the `has_more`
computation `len(exclude_ids) + RESULTS_PER_PAGE < MAX_RESULTS` counts
those never-shown papers toward the MAX_RESULTS session ceiling. -/
theorem C10_exclude_mutation (db : Corpus) (now : Int) (ctx : SearchContext)
    (cp : Option Paper) (timeEx : Nat → Bool) (req : Request)
    (o : SearchOutcome) :
    ((get_valid_papers db now ctx cp).2 = updatedExclude ctx cp ∧
      ∀ x, x ∈ updatedExclude ctx cp ↔
        (x ∈ ctx.exclude_ids ∨ x ∈ ctx.current_tag.getD [] ∨
          ∃ q, cp = some q ∧ x = q.id)) ∧
    (searchModel db now timeEx req = some o →
      o.search_type = some "single_paper" →
      ∃ src, o.source_paper = some src ∧
        o.exclude_after = updatedExclude (make_context db req) (some src) ∧
        o.has_more = (decide (o.papers ≠ []) &&
          decide (o.exclude_after.card + RESULTS_PER_PAGE < MAX_RESULTS))) := by
  refine ⟨⟨get_valid_papers_snd db now ctx cp, mem_updatedExclude ctx cp⟩, ?_⟩
  intro h hty
  obtain ⟨-, hm, r, hd, -, hex, hty', hsrc⟩ := searchModel_spec db now timeEx req o h
  rcases dispatchModel_spec db now timeEx (make_context db req) r hd with
    ⟨-, hr⟩ | ⟨-, -, papers, ex, src, hps, hr⟩ | ⟨-, -, -, hr⟩ |
    ⟨-, -, -, hr⟩ | ⟨-, -, -, hr⟩ | ⟨-, -, hr⟩
  · rw [hty', hr] at hty; simp at hty
  · refine ⟨src, ?_, ?_, hm⟩
    · rw [hsrc, hr]
    · rw [hex, hr]
      show ex = updatedExclude (make_context db req) (some src)
      unfold paper_search at hps
      cases hres : resolve_paper_param db
          ((make_context db req).single_paper_id.getD "") with
      | none => rw [hres] at hps; exact absurd hps (by simp)
      | some paper =>
        simp only [hres, Option.some.injEq, Prod.mk.injEq] at hps
        obtain ⟨-, h2, h3⟩ := hps
        subst h3
        rw [← h2]
        exact get_valid_papers_snd db now (make_context db req) (some paper)
  · rw [hty', hr] at hty; simp at hty
  · rw [hty', hr] at hty; simp at hty
  · rw [hty', hr] at hty; simp at hty
  · rw [hty', hr] at hty; simp at hty

/-- C10 witness: the single-paper retrieval of `reqC10` (source paper 1,
drawer scope tag members 7 and 8, empty request exclusion set) produces an
outcome whose exclusion set is the enlarged `{1, 7, 8}` used by its
`has_more` computation. -/
theorem C10_witness :
    ∃ src, oC10.source_paper = some src ∧
      oC10.exclude_after = updatedExclude (make_context dbC10 reqC10) (some src) ∧
      oC10.has_more = (decide (oC10.papers ≠ []) &&
        decide (oC10.exclude_after.card + RESULTS_PER_PAGE < MAX_RESULTS)) :=
  (C10_exclude_mutation dbC10 0 ctxC10 none (fun _ => false) reqC10 oC10).2
    (by decide) (by decide)

end ArxivTroller
